import Mathlib

/-!
Verification of the IOPn Early Badge backend (FastAPI + Supabase).

This file gives a shallow embedding of the backend's data model and of the
route handlers relevant to the stated properties, and proves or refutes each
property against that embedding.

Conventions of the embedding:
* The `badge_users` table is a list of `UserRecord`; row order models the
  order in which Supabase returns rows, and `data[0]` becomes `List.find?`.
* A Supabase `update ... .eq(col, v)` is a `List.map` that rewrites every row
  whose column equals `v`; `insert` appends; `delete ... .eq` filters out.
* Timestamps are natural numbers (seconds); `datetime.now()` becomes an
  explicit `now : Nat` argument.
* Randomness (`random.choices`, `random.choice`) becomes an explicit argument
  (a function or index into the sampled population).
* A handler returns a pair: the HTTP response (`Except` of a status code) and
  the database state after the call.  Writes performed before an error are
  kept, as they are in the code.
* Python dictionaries keyed by strings are association lists whose keys are
  unique; `del d[k]` is a filter on the key and `d[k] = v` replaces the first
  binding or appends.
-/

set_option autoImplicit false

namespace IOPn

/-! ## mask_email (backend/main.py, lines 117-131) -/

/-- `email.split('@', 1)[0]`: the characters before the first `'@'`. -/
def localPart (cs : List Char) : List Char := cs.takeWhile (fun c => c ≠ '@')

/-- `email.split('@', 1)[1]`: the characters after the first `'@'`. -/
def domainPart (cs : List Char) : List Char := (cs.dropWhile (fun c => c ≠ '@')).drop 1

/-- Embedding of `mask_email` from `backend/main.py`.  Returns `none` when the
Python function raises (indexing `local[0]` on an empty local part), and
`some s` when it returns the string `s`. -/
def mask_email (email : String) : Option String :=
  if email.data = [] ∨ '@' ∉ email.data then some email
  else if (localPart email.data).length ≤ 3 then
    match localPart email.data with
    | [] => none
    | c :: _ => some (String.mk (c :: "***@".data ++ domainPart email.data))
  else
    some (String.mk ((localPart email.data).take 3 ++ "***@".data ++ domainPart email.data))

/-! ## Referral codes (backend/main.py lines 134-136, backend/auth_email.py lines 32-34) -/

/-- `string.ascii_uppercase + string.digits`, the population sampled by
`random.choices` in both copies of `generate_referral_code`. -/
def referral_alphabet : List Char := "ABCDEFGHIJKLMNOPQRSTUVWXYZ0123456789".data

theorem referral_alphabet_length : referral_alphabet.length = 36 := rfl

/-- Embedding of `generate_referral_code` (identical in `backend/main.py` and
`backend/auth_email.py`): eight independent draws from the 36-character
alphabet, joined into a string.  The draws are the explicit argument. -/
def generate_referral_code (pick : Fin 8 → Fin 36) : String :=
  String.mk ((List.finRange 8).map fun i =>
    referral_alphabet.get ((pick i).cast referral_alphabet_length.symm))

/-- The `while True` loop of `get_user_dashboard` (`backend/main.py` lines
884-906): keep regenerating until the candidate collides with no existing
`referral_code`.  The loop is given a finite supply of draws; `none` means the
supply ran out. -/
def dashboard_unique_code (existing : List String) : List (Fin 8 → Fin 36) → Option String
  | [] => none
  | p :: ps =>
    let code := generate_referral_code p
    if code ∈ existing then dashboard_unique_code existing ps else some code

/-! ## Wheel spin odds (backend/main.py lines 421-442) -/

/-- The `segments` list of `calculate_wheel_spin`: `(value, weight)` pairs. -/
def wheel_segments : List (Nat × Nat) :=
  [(0, 15), (10, 20), (25, 18), (50, 15), (100, 12), (250, 8), (500, 7), (750, 4), (1000, 1)]

/-- `weighted_values`: each segment's value repeated `weight` times, in order. -/
def weighted_values : List Nat :=
  wheel_segments.foldl (fun acc s => acc ++ List.replicate s.2 s.1) []

theorem weighted_values_length : weighted_values.length = 100 := rfl

/-- Embedding of `calculate_wheel_spin`: `random.choice(weighted_values)` with
the chosen index made explicit. -/
def calculate_wheel_spin (i : Fin 100) : Nat :=
  weighted_values.get (i.cast weighted_values_length.symm)

/-! ## The badge_users table -/

/-- One row of the `badge_users` table, with the columns the modelled handlers
touch (see the `CREATE TABLE` statement in `backend/init_db.py` and the
migration columns used by the wheel endpoints).  `Option` marks nullable
columns; booleans default to `FALSE` as in the schema. -/
structure UserRecord where
  id : Nat
  email : Option String := none
  telegram_id : Option String := none
  discord_id : Option String := none
  twitter_id : Option String := none
  email_added : Bool := false
  telegram_joined : Bool := false
  discord_joined : Bool := false
  twitter_followed : Bool := false
  badge_issued : Bool := false
  telegram_username : Option String := none
  referral_code : Option String := none
  referred_by : Option String := none
  wheel_spun : Bool := false
  wheel_rep_earned : Nat := 0
  total_rep : Option Nat := none
  deriving Repr, DecidableEq

/-- The column list of the `CREATE TABLE IF NOT EXISTS badge_users` statement
in `backend/init_db.py` (lines 23-46), paired with whether the column is
declared with a uniqueness constraint (`PRIMARY KEY` or `UNIQUE`). -/
def badge_users_columns : List (String × Bool) :=
  [("id", true), ("telegram_id", true), ("discord_id", true), ("twitter_id", true),
   ("username", false), ("first_name", false), ("last_name", false), ("email", true),
   ("badge_issued", false), ("telegram_joined", false), ("discord_joined", false),
   ("twitter_followed", false), ("email_added", false), ("telegram_username", false),
   ("discord_username", false), ("twitter_username", false), ("email_verified_at", false),
   ("badge_issued_at", false), ("created_at", false), ("updated_at", false)]

/-- A table satisfies the SQL `UNIQUE` constraint on `email` when no two
distinct rows carry the same non-null email (`NULL`s may repeat). -/
def EmailUnique (db : List UserRecord) : Prop :=
  db.Pairwise fun a b => a.email = none ∨ a.email ≠ b.email

instance (db : List UserRecord) : Decidable (EmailUnique db) := by
  unfold EmailUnique; infer_instance

/-! ## Handlers over badge_users

Each handler returns `(response, table-after-call)`.  `Except.error n` is an
`HTTPException` with status code `n` (the codes raised inside the handler
body; `spin_wheel`'s blanket `except` re-wraps them into a 500, which does not
change which calls fail).  Row identity for the "clear the duplicate from
other users" loops is by `id`; the embedding rewrites exactly the rows those
loops select, namely the rows matching the queried identifier and having a
different email. -/

/-- Embedding of `register_instant` (`backend/auth_email.py` lines 296-338):
reject an already-registered email, otherwise insert a fresh row with
`email_added = True` and a generated referral code.  The generated code and
the `SERIAL` id are explicit arguments. -/
def register_instant (db : List UserRecord) (email : String) (referredBy : Option String)
    (newRefCode : String) : Except Nat Unit × List UserRecord :=
  if db.any (fun r => r.email == some email) then
    (.error 400, db)
  else
    (.ok (), db ++ [{ id := db.length + 1, email := some email, email_added := true,
                      referral_code := some newRefCode, referred_by := referredBy }])

/-- The update applied to a row that loses its Telegram link when another user
links the same `telegram_id` (`backend/auth_telegram.py` lines 103-112). -/
def clear_telegram (r : UserRecord) : UserRecord :=
  { r with telegram_id := none, telegram_username := none, telegram_joined := false }

/-- Embedding of `link_telegram_simple` (`backend/auth_telegram.py` lines
89-134): first clear the Telegram fields of every other user holding this
`telegram_id`, then set the Telegram fields of the row with the given email;
404 when no such row exists (the clearing writes are kept even then). -/
def link_telegram_simple (db : List UserRecord) (email tid tuname : String) :
    Except Nat Unit × List UserRecord :=
  if email = "" then (.error 400, db)
  else
    let db1 := db.map fun r =>
      if r.telegram_id == some tid && !(r.email == some email) then clear_telegram r else r
    if db1.any (fun r => r.email == some email) then
      (.ok (), db1.map fun r =>
        if r.email == some email then
          { r with telegram_id := some tid, telegram_username := some tuname,
                   telegram_joined := true }
        else r)
    else
      (.error 404, db1)

/-- Embedding of `issue_badge` (`backend/auth_telegram.py` lines 396-417):
set `badge_issued = True` on every row with the given `telegram_id`; 404 when
none matches.  No task flag is consulted. -/
def issue_badge (db : List UserRecord) (tid : String) :
    Except Nat Unit × List UserRecord :=
  if tid = "" then (.error 400, db)
  else if db.any (fun r => r.telegram_id == some tid) then
    (.ok (), db.map fun r =>
      if r.telegram_id == some tid then { r with badge_issued := true } else r)
  else
    (.error 404, db)

/-- Embedding of `spin_wheel` (`backend/main.py` lines 350-419).  The wheel
index is the explicit randomness.  On success the row gains `wheel_spun`,
`wheel_rep_earned` and `total_rep = (total_rep or 0) + rep`; every error path
leaves the table untouched. -/
def spin_wheel (db : List UserRecord) (email : String) (i : Fin 100) :
    Except Nat Nat × List UserRecord :=
  if email = "" then (.error 400, db)
  else
    match db.find? (fun r => r.email == some email) with
    | none => (.error 404, db)
    | some u =>
      if !u.badge_issued then (.error 403, db)
      else if u.wheel_spun then (.error 400, db)
      else
        let rep := calculate_wheel_spin i
        (.ok rep, db.map fun r =>
          if r.email == some email then
            { r with wheel_spun := true, wheel_rep_earned := rep,
                     total_rep := some (u.total_rep.getD 0 + rep) }
          else r)

/-- The response of `/api/status/{email}` (`backend/main.py` lines 540-642),
restricted to the fields the property speaks about. -/
structure StatusResponse where
  user_exists : Bool
  tasks_email : Bool
  tasks_telegram : Bool
  tasks_discord : Bool
  tasks_twitter : Bool
  can_claim : Bool
  badge_issued : Bool
  deriving Repr, DecidableEq

/-- Embedding of `check_user_status` (`backend/main.py` lines 540-642), cache
aside: a missing row yields the all-false response; otherwise the email task
is reported `True` unconditionally ("They're in the database, so email is
verified"), the other tasks come from the row's flags, and
`can_claim = all(tasks.values()) and not badge_issued`. -/
def check_user_status (db : List UserRecord) (email : String) : StatusResponse :=
  match db.find? (fun r => r.email == some email) with
  | none => ⟨false, false, false, false, false, false, false⟩
  | some u =>
    let te := true
    let tt := u.telegram_joined
    let td := u.discord_joined
    let tw := u.twitter_followed
    ⟨true, te, tt, td, tw, (te && tt && td && tw) && !u.badge_issued, u.badge_issued⟩

/-! ## Email verification codes (backend/auth_email.py) -/

/-- One row of the `verification_codes` table.  Timestamps are seconds. -/
structure VerificationCode where
  email : String
  code : String
  expires_at : Nat
  created_at : Nat
  deriving Repr, DecidableEq

/-- Embedding of `store_verification_code` (`backend/auth_email.py` lines
36-68): delete every code stored for the email, then insert the new one,
expiring five minutes (300 seconds) after `now`. -/
def store_verification_code (tbl : List VerificationCode) (email code : String)
    (now : Nat) : List VerificationCode :=
  tbl.filter (fun c => !(c.email == email)) ++ [⟨email, code, now + 300, now⟩]

/-- Embedding of `get_verification_code` (`backend/auth_email.py` lines
70-87): take the first row for the email; if `now > expires_at` delete the
email's rows and return nothing, otherwise return the row. -/
def get_verification_code (tbl : List VerificationCode) (email : String) (now : Nat) :
    Option VerificationCode × List VerificationCode :=
  match tbl.find? (fun c => c.email == email) with
  | none => (none, tbl)
  | some cd =>
    if cd.expires_at < now then (none, tbl.filter (fun c => !(c.email == email)))
    else (some cd, tbl)

/-- Embedding of `verify_code` (`backend/auth_email.py` lines 208-266) in a
deployment without Redis (the fallback import is skipped): fetch the stored
code, compare it with the submitted one, and only if a `badge_users` row with
the email exists mark it `email_added` and delete the used code; otherwise
404 with the code kept.  Returns `(response, codes-after, users-after)`. -/
def verify_code (codes : List VerificationCode) (users : List UserRecord)
    (email submitted : String) (now : Nat) :
    Except Nat Unit × List VerificationCode × List UserRecord :=
  match get_verification_code codes email now with
  | (none, codes1) => (.error 400, codes1, users)
  | (some cd, codes1) =>
    if cd.code ≠ submitted then (.error 400, codes1, users)
    else
      match users.find? (fun r => r.email == some email) with
      | some _ =>
        (.ok (),
         codes1.filter (fun c => !(c.email == email)),
         users.map fun r =>
           if r.email == some email then { r with email_added := true } else r)
      | none => (.error 404, codes1, users)

/-! ## SimpleCache (backend/main.py lines 57-106)

The Python dictionary `self.cache` maps a key to `(value, timestamp)`.  It is
embedded as an association list `List (String × V × Nat)` whose keys are
unique (a dictionary cannot hold a key twice); `del` is a filter on the key
and assignment replaces the first binding or appends. -/

structure SimpleCache (V : Type) where
  cache : List (String × V × Nat)
  ttl : Nat

namespace SimpleCache

variable {V : Type}

/-- Dictionary assignment `self.cache[key] = (value, now)`. -/
def upsert (key : String) (v : V) (now : Nat) :
    List (String × V × Nat) → List (String × V × Nat)
  | [] => [(key, v, now)]
  | e :: es => if e.1 == key then (key, v, now) :: es else e :: upsert key v now es

/-- Embedding of `SimpleCache.set`: store the value with the current time. -/
def set (c : SimpleCache V) (now : Nat) (key : String) (v : V) : SimpleCache V :=
  { c with cache := upsert key v now c.cache }

/-- Embedding of `SimpleCache.get`: a hit younger than `ttl` returns the
value; an entry at least `ttl` old is deleted and `None` is returned. -/
def get (c : SimpleCache V) (now : Nat) (key : String) : Option V × SimpleCache V :=
  match c.cache.find? (fun e => e.1 == key) with
  | none => (none, c)
  | some e =>
    if now - e.2.2 < c.ttl then (some e.2.1, c)
    else (none, { c with cache := c.cache.filter (fun e => !(e.1 == key)) })

/-- Embedding of `SimpleCache.delete`. -/
def delete (c : SimpleCache V) (key : String) : Bool × SimpleCache V :=
  if c.cache.any (fun e => e.1 == key) then
    (true, { c with cache := c.cache.filter (fun e => !(e.1 == key)) })
  else (false, c)

/-- Embedding of `SimpleCache.clear_expired`: collect the keys whose entry is
at least `ttl` old, delete each of them, and return how many there were. -/
def clear_expired (c : SimpleCache V) (now : Nat) : Nat × SimpleCache V :=
  let expired_keys := (c.cache.filter (fun e => c.ttl ≤ now - e.2.2)).map (fun e => e.1)
  (expired_keys.length, { c with cache := c.cache.filter (fun e => now - e.2.2 < c.ttl) })

end SimpleCache

/-! ## Request steps and reachability

The subset of handlers modelled above, as a transition system on the
`badge_users` table starting from the empty table.  A handler's resulting
table is its final state whatever the response, matching the code (writes
performed before an error are kept). -/

/-- One handler invocation, with its request data and randomness. -/
inductive Op where
  | registerInstant (email : String) (referredBy : Option String) (newRefCode : String)
  | linkTelegramSimple (email tid tuname : String)
  | issueBadge (tid : String)
  | spinWheel (email : String) (i : Fin 100)

/-- The `badge_users` table after serving the request. -/
def step (db : List UserRecord) : Op → List UserRecord
  | .registerInstant email rb code => (register_instant db email rb code).2
  | .linkTelegramSimple email tid un => (link_telegram_simple db email tid un).2
  | .issueBadge tid => (issue_badge db tid).2
  | .spinWheel email i => (spin_wheel db email i).2

/-- A table is reachable when some request sequence produces it from the
empty table. -/
def Reachable (db : List UserRecord) : Prop :=
  ∃ ops : List Op, List.foldl step [] ops = db

/-- A concrete request sequence: register an email, link a Telegram account,
then have the bot call `/badge/issue` for that `telegram_id`.  No Discord or
Twitter task is ever completed. -/
def c1_ops : List Op :=
  [.registerInstant "alice@example.com" none "AAAAAAAA",
   .linkTelegramSimple "alice@example.com" "tg-1" "alice",
   .issueBadge "tg-1"]

/-! ## Tables touched by the route handlers

For each active route handler (commented-out routes excluded), the table
named in each `supabase.table(...)` call its body performs, in source order,
including calls made through the helper functions it invokes.  Transcribed
from `backend/main.py`, `backend/auth_email.py`, `backend/auth_telegram.py`,
`backend/auth_discord.py` and `backend/auth_twitter.py`. -/

/-- `get_user_dashboard` (`backend/main.py` lines 857-1000): user select,
uniqueness loop select, referral-code update, drops select, referred select. -/
def get_user_dashboard_tables : List String :=
  ["badge_users", "badge_users", "badge_users", "referral_drops", "badge_users"]

/-- `send_verification` (`backend/auth_email.py`): user select, then
`store_verification_code` (delete, insert, fallback retry insert). -/
def send_verification_tables : List String :=
  ["badge_users", "verification_codes", "verification_codes", "verification_codes"]

/-- `verify_code` (`backend/auth_email.py`): `get_verification_code` (select,
expiry delete), user select, user update, code delete. -/
def verify_code_tables : List String :=
  ["verification_codes", "verification_codes", "badge_users", "badge_users",
   "verification_codes"]

/-- The remaining active handlers touch only `badge_users`.  Counted per
handler: `main.py` get_wheel_status 1, spin_wheel 2, health_check 1,
check_user_status 1; `auth_email.py` email_status 1, register_instant 2;
`auth_telegram.py` telegram_auth 2, link_telegram_simple 3,
link_with_channel_check 4, verify_and_update 4, force_verify_telegram 4,
verify_telegram 1, link_telegram_twitter 1, badge_status 1, issue_badge 1;
`auth_discord.py` discord_callback 6, get_discord_status 1;
`auth_twitter.py` twitter_callback 6, twitter_status 1.
(`send_verification`'s table-creation fallback also calls the RPC
`create_verification_codes_table`, which is not a table read or write.) -/
def badge_users_only_handler_tables : List String :=
  List.replicate 43 "badge_users"

/-- Every `supabase.table(...)` access of every active route handler. -/
def all_handler_table_accesses : List String :=
  get_user_dashboard_tables ++ send_verification_tables ++ verify_code_tables ++
    badge_users_only_handler_tables

/-- The shape every referral code is claimed to have: exactly eight
characters, each an uppercase ASCII letter or a decimal digit. -/
def ReferralCodeShape (code : String) : Prop :=
  code.length = 8 ∧ ∀ c ∈ code.data, ('A' ≤ c ∧ c ≤ 'Z') ∨ ('0' ≤ c ∧ c ≤ '9')

/-- A badge holder who has already spun the wheel (used as a test row). -/
def spun_user : UserRecord :=
  { id := 1, email := some "s@x", badge_issued := true, wheel_spun := true }

/-- A badge holder who has not yet spun the wheel (used as a test row). -/
def fresh_user : UserRecord :=
  { id := 2, email := some "f@x", badge_issued := true }

/-- A registered user without a Telegram link (used as a test row). -/
def c2_user_a : UserRecord := { id := 1, email := some "a@x", email_added := true }

/-- A registered user whose Telegram account is linked (used as a test row). -/
def c2_user_b : UserRecord :=
  { id := 2, email := some "b@x", email_added := true, telegram_id := some "t1",
    telegram_joined := true, telegram_username := some "bob" }

/-- A row with `email_added = FALSE` but the three social flags set (the
schema default for `email_added` is `FALSE`; used as a test row). -/
def c4_user : UserRecord :=
  { id := 1, email := some "a@x", email_added := false, telegram_joined := true,
    discord_joined := true, twitter_followed := true }

/-! # Theorems -/

/-! ## C3: tables touched by the route handlers -/

/-- C3 counterexample: the claim says every database access of every route
handler targets `badge_users`, but `get_user_dashboard` reads the
`referral_drops` table (`backend/main.py` line 910). -/
theorem c3_dashboard_touches_referral_drops :
    "referral_drops" ∈ get_user_dashboard_tables ∧ "referral_drops" ≠ "badge_users" := by
  decide

/-- C3 amended: every database access of every active route handler targets
one of the three tables `badge_users`, `verification_codes` or
`referral_drops`. -/
theorem c3_handler_tables_subset :
    all_handler_table_accesses.all
      (fun t => t == "badge_users" || t == "verification_codes" || t == "referral_drops")
      = true := by
  decide

/-! ## C5: referral code shape -/

/-- C5: every code produced by `generate_referral_code` (both copies have the
same body) is eight characters, each an uppercase ASCII letter or a digit,
and so is any code the dashboard's uniqueness loop assigns. -/
theorem c5_referral_code_shape :
    (∀ pick : Fin 8 → Fin 36, ReferralCodeShape (generate_referral_code pick)) ∧
    (∀ (existing : List String) (picks : List (Fin 8 → Fin 36)) (code : String),
      dashboard_unique_code existing picks = some code → ReferralCodeShape code) := by
  have hgen : ∀ pick : Fin 8 → Fin 36, ReferralCodeShape (generate_referral_code pick) := by
    intro pick
    have hdata : (generate_referral_code pick).data =
        (List.finRange 8).map
          (fun i => referral_alphabet.get ((pick i).cast referral_alphabet_length.symm)) := rfl
    constructor
    · show (generate_referral_code pick).data.length = 8
      rw [hdata]
      simp
    · intro c hc
      rw [hdata, List.mem_map] at hc
      obtain ⟨i, _, rfl⟩ := hc
      have hall : ∀ x ∈ referral_alphabet, ('A' ≤ x ∧ x ≤ 'Z') ∨ ('0' ≤ x ∧ x ≤ '9') := by
        decide
      exact hall _ (List.get_mem referral_alphabet _
        ((pick i).cast referral_alphabet_length.symm).isLt)
  refine ⟨hgen, ?_⟩
  intro existing picks
  induction picks with
  | nil => intro code h; simp [dashboard_unique_code] at h
  | cons p ps ih =>
    intro code h
    simp only [dashboard_unique_code] at h
    by_cases hmem : generate_referral_code p ∈ existing
    · rw [if_pos hmem] at h
      exact ih code h
    · rw [if_neg hmem] at h
      cases h
      exact hgen p

/-- C5 witness: the loop with one available draw assigns a code of the
claimed shape. -/
theorem c5_referral_code_shape_witness :
    dashboard_unique_code [] [fun _ => 0] = some "AAAAAAAA" ∧ ReferralCodeShape "AAAAAAAA" :=
  ⟨by decide, c5_referral_code_shape.2 [] [fun _ => 0] "AAAAAAAA" (by decide)⟩

/-! ## C8: the wheel -/

theorem calculate_wheel_spin_mem (i : Fin 100) :
    calculate_wheel_spin i ∈ [0, 10, 25, 50, 100, 250, 500, 750, 1000] := by
  have hall : ∀ x ∈ weighted_values, x ∈ [0, 10, 25, 50, 100, 250, 500, 750, 1000] := by
    decide
  exact hall _ (List.get_mem weighted_values _ (i.cast weighted_values_length.symm).isLt)

/-- C8: a user who has spun gets an error and an unchanged table, whatever
the badge state; a badge holder's first spin returns `ok` with a result from
the wheel's nine segment values, rewrites only that user's row, and sets
`wheel_spun` and `total_rep = (total_rep or 0) + rep` on it. -/
theorem c8_spin_wheel_spec (db : List UserRecord) (email : String) (i : Fin 100)
    (u : UserRecord) (hne : email ≠ "")
    (hfind : db.find? (fun r => r.email == some email) = some u) :
    (u.wheel_spun = true → ∃ e, spin_wheel db email i = (.error e, db)) ∧
    (u.badge_issued = true → u.wheel_spun = false →
      spin_wheel db email i =
        (.ok (calculate_wheel_spin i),
          db.map fun r =>
            if r.email == some email then
              { r with wheel_spun := true, wheel_rep_earned := calculate_wheel_spin i,
                       total_rep := some (u.total_rep.getD 0 + calculate_wheel_spin i) }
            else r) ∧
      calculate_wheel_spin i ∈ [0, 10, 25, 50, 100, 250, 500, 750, 1000] ∧
      { u with wheel_spun := true, wheel_rep_earned := calculate_wheel_spin i,
               total_rep := some (u.total_rep.getD 0 + calculate_wheel_spin i) } ∈
        (spin_wheel db email i).2) := by
  constructor
  · intro hspun
    cases hb : u.badge_issued
    · exact ⟨403, by simp [spin_wheel, hne, hfind, hb]⟩
    · exact ⟨400, by simp [spin_wheel, hne, hfind, hb, hspun]⟩
  · intro hb hsp
    have heq : spin_wheel db email i =
        (.ok (calculate_wheel_spin i),
          db.map fun r =>
            if r.email == some email then
              { r with wheel_spun := true, wheel_rep_earned := calculate_wheel_spin i,
                       total_rep := some (u.total_rep.getD 0 + calculate_wheel_spin i) }
            else r) := by
      simp [spin_wheel, hne, hfind, hb, hsp]
    refine ⟨heq, calculate_wheel_spin_mem i, ?_⟩
    rw [heq]
    have humem : u ∈ db := List.mem_of_find?_eq_some hfind
    have hpu' := List.find?_some hfind
    have hpu : (u.email == some email) = true := hpu'
    have hmap := List.mem_map_of_mem
      (fun r : UserRecord =>
        if r.email == some email then
          { r with wheel_spun := true, wheel_rep_earned := calculate_wheel_spin i,
                   total_rep := some (u.total_rep.getD 0 + calculate_wheel_spin i) }
        else r) humem
    simpa [hpu] using hmap

/-- C8 witness: on a one-row table, a spun user's second spin errors with the
table unchanged, and a fresh badge holder's first spin rewrites their row. -/
theorem c8_spin_wheel_spec_witness :
    (∃ e, spin_wheel [spun_user] "s@x" 0 = (.error e, [spun_user])) ∧
    ({ fresh_user with
        wheel_spun := true,
        wheel_rep_earned := calculate_wheel_spin 0,
        total_rep := some (fresh_user.total_rep.getD 0 + calculate_wheel_spin 0) } ∈
      (spin_wheel [fresh_user] "f@x" 0).2) :=
  ⟨(c8_spin_wheel_spec [spun_user] "s@x" 0 spun_user (by decide) (by decide)).1 rfl,
   ((c8_spin_wheel_spec [fresh_user] "f@x" 0 fresh_user (by decide) (by decide)).2 rfl rfl).2.2⟩

/-! ## C10: mask_email -/

/-- C10 counterexample: `"@d"` contains `'@'` and its local part has three or
fewer characters, so the claim promises a masked result, but the code indexes
`local[0]` on an empty local part and raises instead of returning. -/
theorem c10_mask_email_crashes_on_empty_local :
    '@' ∈ "@d".data ∧ mask_email "@d" = none := by
  decide

/-- C10 amended: inputs without `'@'` (including the empty string) come back
unchanged; with `'@'`, a local part longer than three characters is masked to
its first three characters and `***@domain`, a local part of one to three
characters to its first character and `***@domain`, and an empty local part
makes the function raise (no result). -/
theorem c10_mask_email_spec (s : String) :
    (s.data = [] ∨ '@' ∉ s.data → mask_email s = some s) ∧
    ('@' ∈ s.data →
      (3 < (localPart s.data).length →
        mask_email s =
          some (String.mk ((localPart s.data).take 3 ++ "***@".data ++ domainPart s.data))) ∧
      (∀ c cs, localPart s.data = c :: cs → (localPart s.data).length ≤ 3 →
        mask_email s = some (String.mk (c :: "***@".data ++ domainPart s.data))) ∧
      (localPart s.data = [] → mask_email s = none)) := by
  constructor
  · intro h
    unfold mask_email
    rw [if_pos h]
  · intro h
    have hcond : ¬(s.data = [] ∨ '@' ∉ s.data) := by
      push_neg
      exact ⟨List.ne_nil_of_mem h, h⟩
    refine ⟨?_, ?_, ?_⟩
    · intro hlen
      unfold mask_email
      rw [if_neg hcond, if_neg (by omega)]
    · intro c cs hloc hlen
      unfold mask_email
      rw [if_neg hcond, if_pos hlen, hloc]
    · intro hnil
      unfold mask_email
      rw [if_neg hcond, if_pos (by rw [hnil]; decide), hnil]

/-- C10 witness: a long local part is masked to its first three characters
with the domain kept. -/
theorem c10_mask_email_spec_witness :
    mask_email "john.doe@x.com" =
      some (String.mk ((localPart "john.doe@x.com".data).take 3 ++ "***@".data ++
        domainPart "john.doe@x.com".data)) :=
  ((c10_mask_email_spec "john.doe@x.com").2 (by decide)).1 (by decide)

/-! ## C6: SimpleCache -/

theorem find?_upsert {V : Type} (key : String) (v : V) (now : Nat)
    (l : List (String × V × Nat)) :
    (SimpleCache.upsert key v now l).find? (fun e => e.1 == key) = some (key, v, now) := by
  induction l with
  | nil => simp [SimpleCache.upsert]
  | cons e es ih =>
    by_cases h : (e.1 == key) = true
    · simp [SimpleCache.upsert, h]
    · simp [SimpleCache.upsert, h, ih]

/-- C6: after `set(key, value)` at time `t0`, `get(key)` at time `t` returns
the value while the age `t - t0` is strictly below `ttl`, and returns `None`
with the entry removed once the age reaches `ttl`; `clear_expired` removes
exactly the entries whose age is at least `ttl` and returns their count. -/
theorem c6_simplecache_spec {V : Type} (c : SimpleCache V) (t0 t : Nat) (key : String)
    (v : V) (_ht : t0 ≤ t) :
    (t - t0 < c.ttl → ((c.set t0 key v).get t key).1 = some v) ∧
    (c.ttl ≤ t - t0 →
      ((c.set t0 key v).get t key).1 = none ∧
      ∀ e ∈ ((c.set t0 key v).get t key).2.cache, (e.1 == key) = false) ∧
    ((c.clear_expired t).1 = (c.cache.filter (fun e => c.ttl ≤ t - e.2.2)).length ∧
      ∀ e, e ∈ (c.clear_expired t).2.cache ↔ e ∈ c.cache ∧ t - e.2.2 < c.ttl) := by
  refine ⟨?_, ?_, ?_, ?_⟩
  · intro hlt
    simp [SimpleCache.set, SimpleCache.get, find?_upsert, hlt]
  · intro hge
    have hnlt : ¬(t - t0 < c.ttl) := not_lt.mpr hge
    constructor
    · simp [SimpleCache.set, SimpleCache.get, find?_upsert, hnlt]
    · intro e he
      have he' : e ∈ (SimpleCache.upsert key v t0 c.cache).filter
          (fun e => !(e.1 == key)) := by
        simpa [SimpleCache.set, SimpleCache.get, find?_upsert, hnlt] using he
      have h2 := (List.mem_filter.mp he').2
      simpa using h2
  · simp [SimpleCache.clear_expired]
  · intro e
    simp [SimpleCache.clear_expired, List.mem_filter]

/-- C6 witness: on an empty 30-second cache, a value stored at time 0 is
still returned at time 0. -/
theorem c6_simplecache_spec_witness :
    (((SimpleCache.mk ([] : List (String × Nat × Nat)) 30).set 0 "k" 7).get 0 "k").1
      = some 7 :=
  (c6_simplecache_spec ⟨[], 30⟩ 0 0 "k" 7 (Nat.le_refl 0)).1 (by decide)

/-! ## C7: email uniqueness -/

theorem email_unique_filter_len :
    ∀ db : List UserRecord, EmailUnique db →
    ∀ e : String, (db.filter (fun r => r.email == some e)).length ≤ 1 := by
  intro db
  induction db with
  | nil =>
    intro _ e
    simp
  | cons r rs ih =>
    intro h e
    have h' : List.Pairwise (fun a b => a.email = none ∨ a.email ≠ b.email) (r :: rs) := h
    rw [List.pairwise_cons] at h'
    obtain ⟨hr, hrs⟩ := h'
    by_cases hc : (r.email == some e) = true
    · have hre : r.email = some e := by simpa using hc
      have hnil : rs.filter (fun x => x.email == some e) = [] := by
        rw [List.filter_eq_nil_iff]
        intro b hb hpb
        have hbe : b.email = some e := by simpa using hpb
        rcases hr b hb with h1 | h1
        · rw [h1] at hre
          cases hre
        · exact h1 (hre.trans hbe.symm)
      simp [List.filter_cons, hc, hnil]
    · simp only [List.filter_cons, hc, if_neg]
      simpa [hc] using ih hrs e

/-- C7: the `badge_users` schema declares the `email` column `UNIQUE`, and on
any table satisfying that constraint at most one row carries a given email,
so a handler lookup by email concerns at most one row. -/
theorem c7_email_key_unique (db : List UserRecord) (h : EmailUnique db) :
    ("email", true) ∈ badge_users_columns ∧
    ∀ e : String, (db.filter (fun r => r.email == some e)).length ≤ 1 :=
  ⟨by decide, fun e => email_unique_filter_len db h e⟩

/-- C7 witness: a two-row table with distinct emails satisfies the constraint
and a lookup matches at most one row. -/
theorem c7_email_key_unique_witness :
    ("email", true) ∈ badge_users_columns ∧
    (([{ id := 1, email := some "a@x" }, { id := 2, email := some "b@x" }] :
        List UserRecord).filter (fun r => r.email == some "a@x")).length ≤ 1 :=
  ⟨(c7_email_key_unique [{ id := 1, email := some "a@x" }, { id := 2, email := some "b@x" }]
      (by decide)).1,
   (c7_email_key_unique [{ id := 1, email := some "a@x" }, { id := 2, email := some "b@x" }]
      (by decide)).2 "a@x"⟩

/-! ## C1: badge issuance and the four task flags -/

/-- C1 counterexample: a reachable table (register an email, link Telegram,
let the bot call `/badge/issue`) holds a row with `badge_issued = true` but
`twitter_followed = false`, so issuing a badge does not require the four
verification tasks. -/
theorem c1_badge_without_tasks_reachable :
    Reachable (List.foldl step [] c1_ops) ∧
    ((List.foldl step [] c1_ops).any
      fun r => r.badge_issued && !r.twitter_followed) = true :=
  ⟨⟨c1_ops, rfl⟩, by decide⟩

/-- C1 amended: `issue_badge` checks only that a row with the requested
`telegram_id` exists; it sets `badge_issued = true` on that row with all
other fields (the four task flags included) unchanged, whatever their
values. -/
theorem c1_issue_badge_unconditional (db : List UserRecord) (tid : String)
    (r : UserRecord) (h1 : tid ≠ "") (hr : r ∈ db) (htid : r.telegram_id = some tid) :
    (issue_badge db tid).1 = .ok () ∧
    { r with badge_issued := true } ∈ (issue_badge db tid).2 := by
  have hany : db.any (fun x => x.telegram_id == some tid) = true :=
    List.any_eq_true.mpr ⟨r, hr, by simp [htid]⟩
  constructor
  · simp [issue_badge, h1, hany]
  · have hmap := List.mem_map_of_mem
      (fun x : UserRecord =>
        if x.telegram_id == some tid then { x with badge_issued := true } else x) hr
    simpa [issue_badge, h1, hany, htid] using hmap

/-- C1 amended witness: issuing for an existing `telegram_id` succeeds and
flips only `badge_issued`. -/
theorem c1_issue_badge_unconditional_witness :
    (issue_badge [{ id := 1, email := some "b@x", telegram_id := some "t9" }] "t9").1
        = .ok () ∧
    ({ id := 1, email := some "b@x", telegram_id := some "t9", badge_issued := true } :
        UserRecord) ∈
      (issue_badge [{ id := 1, email := some "b@x", telegram_id := some "t9" }] "t9").2 := by
  have h := c1_issue_badge_unconditional
    [{ id := 1, email := some "b@x", telegram_id := some "t9" }] "t9"
    { id := 1, email := some "b@x", telegram_id := some "t9" }
    (by decide) (List.mem_singleton_self _) rfl
  exact ⟨h.1, h.2⟩

/-! ## C2: how identifier uniqueness is enforced -/

/-- C2 counterexample: `link_telegram_simple` targeted at user `a@x` rewrites
the row of the other user `b@x` who held the same `telegram_id`, clearing the
duplicate at application level before writing — the handler does contain such
logic. -/
theorem c2_link_clears_other_user :
    (link_telegram_simple [c2_user_a, c2_user_b] "a@x" "t1" "alice").2 =
      [{ c2_user_a with
          telegram_id := some "t1", telegram_username := some "alice",
          telegram_joined := true },
       clear_telegram c2_user_b] ∧
    clear_telegram c2_user_b ≠ c2_user_b := by
  decide

/-- C2 amended: uniqueness is enforced twice over — the schema declares the
four identifier columns unique, and the Telegram link handler additionally
detects and clears the identifier from every other user's row before
writing. -/
theorem c2_uniqueness_also_in_handlers (db : List UserRecord) (email tid un : String)
    (r : UserRecord) (hne : email ≠ "") (hr : r ∈ db) (htid : r.telegram_id = some tid)
    (hdiff : r.email ≠ some email) :
    (("email", true) ∈ badge_users_columns ∧ ("telegram_id", true) ∈ badge_users_columns ∧
     ("discord_id", true) ∈ badge_users_columns ∧ ("twitter_id", true) ∈ badge_users_columns) ∧
    clear_telegram r ∈ (link_telegram_simple db email tid un).2 := by
  refine ⟨by decide, ?_⟩
  have hbeq : (r.email == some email) = false := by
    simpa using hdiff
  have hcond : (r.telegram_id == some tid && !(r.email == some email)) = true := by
    simp [htid, hbeq]
  have hmem1 : clear_telegram r ∈ db.map (fun x =>
      if x.telegram_id == some tid && !(x.email == some email) then clear_telegram x
      else x) := by
    have hmap := List.mem_map_of_mem (fun x : UserRecord =>
      if x.telegram_id == some tid && !(x.email == some email) then clear_telegram x
      else x) hr
    simpa [hcond] using hmap
  have hclear_email : (clear_telegram r).email = r.email := rfl
  by_cases hany : (db.map fun x =>
      if x.telegram_id == some tid && !(x.email == some email) then clear_telegram x
      else x).any (fun x => x.email == some email) = true
  · have hmem2 := List.mem_map_of_mem (fun x : UserRecord =>
      if x.email == some email then
        { x with telegram_id := some tid, telegram_username := some un,
                 telegram_joined := true }
      else x) hmem1
    simp only [link_telegram_simple, hne, if_neg, hany, if_true]
    simpa [link_telegram_simple, hne, hany, hclear_email, hbeq] using hmem2
  · simp only [link_telegram_simple, hne, if_neg, hany, if_true]
    simpa [link_telegram_simple, hne, hany] using hmem1

/-- C2 amended witness: on the two-row table, the other user's cleared row is
in the resulting table. -/
theorem c2_uniqueness_also_in_handlers_witness :
    clear_telegram c2_user_b ∈
      (link_telegram_simple [c2_user_a, c2_user_b] "a@x" "t1" "alice").2 :=
  (c2_uniqueness_also_in_handlers [c2_user_a, c2_user_b] "a@x" "t1" "alice" c2_user_b
    (by decide) (by decide) rfl (by decide)).2

/-! ## C4: the status endpoint's can_claim -/

/-- C4 counterexample: a row with `email_added = false` but the three social
flags set is reported `can_claim = true`, although its email verification
task flag is not complete. -/
theorem c4_can_claim_ignores_email_added :
    (check_user_status [c4_user] "a@x").can_claim = true ∧ c4_user.email_added = false := by
  decide

/-- C4 amended: `can_claim` is true exactly when the row exists with
`telegram_joined`, `discord_joined` and `twitter_followed` set and
`badge_issued` clear — the stored `email_added` flag is not consulted, the
email task being reported complete whenever the row exists; for a missing
row every task is reported false and `can_claim` is false. -/
theorem c4_check_user_status_spec (db : List UserRecord) (email : String) :
    ((check_user_status db email).can_claim = true ↔
      ∃ u, db.find? (fun r => r.email == some email) = some u ∧
        u.telegram_joined = true ∧ u.discord_joined = true ∧ u.twitter_followed = true ∧
        u.badge_issued = false) ∧
    (db.find? (fun r => r.email == some email) = none →
      check_user_status db email = ⟨false, false, false, false, false, false, false⟩) := by
  cases hf : db.find? (fun r => r.email == some email) with
  | none =>
    refine ⟨?_, fun _ => by simp [check_user_status, hf]⟩
    simp [check_user_status, hf]
  | some u =>
    constructor
    · constructor
      · intro hc
        have hcc : ((true && u.telegram_joined && u.discord_joined && u.twitter_followed)
            && !u.badge_issued) = true := by
          simpa [check_user_status, hf] using hc
        simp only [Bool.true_and, Bool.and_eq_true, Bool.not_eq_true'] at hcc
        exact ⟨u, rfl, hcc.1.1.1, hcc.1.1.2, hcc.1.2, hcc.2⟩
      · rintro ⟨u', hu', h1, h2, h3, h4⟩
        have huu : u = u' := by injection hu'
        subst huu
        simp [check_user_status, hf, h1, h2, h3, h4]
    · intro h
      cases h

/-- C4 witness: on the empty table every field of the response is false. -/
theorem c4_check_user_status_spec_witness :
    check_user_status [] "x@y" = ⟨false, false, false, false, false, false, false⟩ :=
  (c4_check_user_status_spec [] "x@y").2 rfl

/-! ## C9: verification codes -/

/-- C9 counterexample: a stored, unexpired code equal to the submitted one is
not sufficient for `verify_code` to succeed — with no `badge_users` row for
the email it fails with a 404 (and keeps the code), refuting the claimed
"if and only if". -/
theorem c9_matching_code_without_user_fails :
    ([(⟨"a@x", "123456", 300, 0⟩ : VerificationCode)].find? (fun c => c.email == "a@x")
        = some ⟨"a@x", "123456", 300, 0⟩) ∧
    (verify_code [⟨"a@x", "123456", 300, 0⟩] [] "a@x" "123456" 10).1 = .error 404 :=
  ⟨rfl, rfl⟩

/-- C9 amended: `store_verification_code` leaves exactly the freshly inserted
code stored for the email; `verify_code` succeeds if and only if the stored
code for the email is unexpired and equals the submitted one AND a
`badge_users` row with that email exists; on success the stored code is
deleted. -/
theorem c9_verify_code_spec (codes : List VerificationCode) (users : List UserRecord)
    (email submitted freshCode : String) (now : Nat) :
    ((store_verification_code codes email freshCode now).filter (fun c => c.email == email)
        = [⟨email, freshCode, now + 300, now⟩]) ∧
    ((verify_code codes users email submitted now).1 = .ok () ↔
      (∃ cd, codes.find? (fun c => c.email == email) = some cd ∧ now ≤ cd.expires_at ∧
        cd.code = submitted) ∧
      ∃ u, users.find? (fun r => r.email == some email) = some u) ∧
    ((verify_code codes users email submitted now).1 = .ok () →
      ∀ cd ∈ (verify_code codes users email submitted now).2.1, (cd.email == email) = false) := by
  refine ⟨?_, ?_, ?_⟩
  · simp only [store_verification_code, List.filter_append, List.filter_filter]
    simp
  · cases hf : codes.find? (fun c => c.email == email) with
    | none =>
      simp [verify_code, get_verification_code, hf]
    | some cd =>
      by_cases hexp : cd.expires_at < now
      · have hred : (verify_code codes users email submitted now).1 = .error 400 := by
          simp [verify_code, get_verification_code, hf, hexp]
        rw [hred]
        constructor
        · intro h
          exact Except.noConfusion h
        · rintro ⟨⟨cd', hcd', hle, _⟩, _⟩
          have hcc : cd = cd' := by injection hcd'
          subst hcc
          exact absurd hle (by omega)
      · by_cases hco : cd.code = submitted
        · cases hu : users.find? (fun r => r.email == some email) with
          | some u =>
            have hred : (verify_code codes users email submitted now).1 = .ok () := by
              simp [verify_code, get_verification_code, hf, hexp, hco, hu]
            rw [hred]
            constructor
            · intro _
              exact ⟨⟨cd, rfl, not_lt.mp hexp, hco⟩, u, rfl⟩
            · intro _
              rfl
          | none =>
            have hred : (verify_code codes users email submitted now).1 = .error 404 := by
              simp [verify_code, get_verification_code, hf, hexp, hco, hu]
            rw [hred]
            constructor
            · intro h
              exact Except.noConfusion h
            · rintro ⟨_, u', hu'⟩
              exact Option.noConfusion hu'
        · have hred : (verify_code codes users email submitted now).1 = .error 400 := by
            simp [verify_code, get_verification_code, hf, hexp, hco]
          rw [hred]
          constructor
          · intro h
            exact Except.noConfusion h
          · rintro ⟨⟨cd', hcd', _, hcode⟩, _⟩
            have hcc : cd = cd' := by injection hcd'
            subst hcc
            exact absurd hcode hco
  · intro hok cd' hcd'
    cases hf : codes.find? (fun c => c.email == email) with
    | none =>
      rw [show (verify_code codes users email submitted now).1 = .error 400 from by
        simp [verify_code, get_verification_code, hf]] at hok
      exact Except.noConfusion hok
    | some cd =>
      by_cases hexp : cd.expires_at < now
      · rw [show (verify_code codes users email submitted now).1 = .error 400 from by
          simp [verify_code, get_verification_code, hf, hexp]] at hok
        exact Except.noConfusion hok
      · by_cases hco : cd.code = submitted
        · cases hu : users.find? (fun r => r.email == some email) with
          | some u =>
            have hred : (verify_code codes users email submitted now).2.1 =
                codes.filter (fun c => !(c.email == email)) := by
              simp [verify_code, get_verification_code, hf, hexp, hco, hu]
            rw [hred] at hcd'
            simpa using (List.mem_filter.mp hcd').2
          | none =>
            rw [show (verify_code codes users email submitted now).1 = .error 404 from by
              simp [verify_code, get_verification_code, hf, hexp, hco, hu]] at hok
            exact Except.noConfusion hok
        · rw [show (verify_code codes users email submitted now).1 = .error 400 from by
            simp [verify_code, get_verification_code, hf, hexp, hco]] at hok
          exact Except.noConfusion hok

/-- C9 witness: with a matching unexpired code and an existing user row,
verification succeeds. -/
theorem c9_verify_code_spec_witness :
    (verify_code [⟨"a@x", "123456", 300, 0⟩] [{ id := 1, email := some "a@x" }]
        "a@x" "123456" 10).1 = .ok () :=
  (c9_verify_code_spec [⟨"a@x", "123456", 300, 0⟩] [{ id := 1, email := some "a@x" }]
      "a@x" "123456" "999999" 10).2.1.mpr
    ⟨⟨⟨"a@x", "123456", 300, 0⟩, by decide, by decide, rfl⟩,
     ⟨{ id := 1, email := some "a@x" }, by decide⟩⟩

end IOPn
